import Mathlib

/-!
Verification development for the `dms_storage_s3` connection module
(`dms_storage_s3/utils/connection.py`).

The module wraps an S3-compatible client: connection construction from
environment/host configuration, bucket existence check, bucket creation and
deletion, chunked bulk object deletion, and bucket-name normalization.

The embedding is shallow: Python functions become Lean functions, and the
remote S3 client is modelled as an oracle (the remote's response is an input;
the remote calls issued are collected in a trace).  Python string truthiness
(`None` and `""` are falsy) is modelled explicitly on `Option String`.
-/

namespace DmsStorageS3

/-- Python truthiness for optional strings: `None` and `""` are falsy. -/
def pyTruthy : Option String → Bool
  | none => false
  | some s => !(s == "")

/-- Python `a or b` on optional strings: yields `a` when `a` is truthy,
otherwise `b` (whatever it is, including `None`). -/
def pyOrStr (a b : Option String) : Option String :=
  if pyTruthy a then a else b

/-- Model of Python `str.upper()` (ASCII case mapping, as used for the
environment-variable keys in this module). -/
def strUpper (s : String) : String :=
  (s.toList.map Char.toUpper).asString

/-- Model of Python `str.lower()` (ASCII case mapping, as used for the
host-configuration keys in this module). -/
def strLower (s : String) : String :=
  (s.toList.map Char.toLower).asString

/-- Characters allowed in a URL scheme by `urllib.parse.urlsplit`:
ASCII letters and digits, `+`, `-`, `.`. -/
def isSchemeChar (c : Char) : Bool :=
  c.isAlpha || c.isDigit || c == '+' || c == '-' || c == '.'

/-- Model of `urlsplit(host).scheme` being non-empty: the string has a `:`
at some position `i > 0`, every character before it is a scheme character,
and the first character is an ASCII letter. -/
def hasScheme (s : String) : Bool :=
  let p := s.toList.span (fun c => !(c == ':'))
  !(p.2 == []) && !(p.1 == []) && p.1.all isSchemeChar &&
    (match p.1 with
     | [] => false
     | c :: _ => c.isAlpha)

/-- Modelled from the spec: the external `slugify` library (not part of this
repository) — lowercase, keep ASCII alphanumerics, collapse every run of
other characters into a single `-`, trim leading/trailing separators. -/
def slugify (s : String) : String :=
  let cleaned := s.toList.map (fun c => if c.isAlphanum then c.toLower else ' ')
  let pieces := (cleaned.splitOn ' ').filter (fun w => !(w == []))
  String.mk (List.intercalate ['-'] pieces)

/-- The two ambient configuration sources read by the module:
the process environment (`os.environ`) and the host configuration store
(`odoo.tools.config`).  Absent keys are `none`. -/
structure Env where
  osEnviron : String → Option String
  odooConfig : String → Option String

/-- Embedding of `_get_env_or_config`:
`os.environ.get(str_key.upper()) or config.get(str_key.lower())`. -/
def get_env_or_config (e : Env) (key : String) : Option String :=
  pyOrStr (e.osEnviron (strUpper key)) (e.odooConfig (strLower key))

/-- The errors this module can raise, by constructor:
`userError` models `odoo.exceptions.UserError(msg)`,
`bucketAlreadyExists` models `BucketAlreadyExistsException(bucket_name)`,
`nonEmptyBucket` models `NonEmptyBucketException(bucket_name)`. -/
inductive DmsError where
  | userError (msg : String)
  | bucketAlreadyExists (bucket_name : String)
  | nonEmptyBucket (bucket_name : String)
deriving DecidableEq

/-- The remote S3 calls the module can issue (trace elements). -/
inductive S3Call where
  | headBucket (bucket : String)
  | createBucket (bucket : String) (locationConstraint : Option String)
  | listObjectsV2 (bucket : String) (maxKeys : Nat)
  | deleteBucket (bucket : String)
  | deleteObjects (bucket : String) (keys : List String)
deriving DecidableEq

/-- The keyword parameters handed to `boto3.resource("s3", **params)`:
credentials always, endpoint and region only when truthy. -/
structure BotoParams where
  aws_access_key_id : Option String
  aws_secret_access_key : Option String
  endpoint_url : Option String
  region_name : Option String
deriving DecidableEq

/-- The state of a constructed `Connection`: the stored region and the
parameters handed to the underlying client. -/
structure Connection where
  region_name : Option String
  boto_params : BotoParams
deriving DecidableEq

/-- The user-facing configuration error message raised by
`Connection.__init__` when both credentials are missing (the `_(...)`
translation wrapper is modelled as the identity). -/
def credentialsMsg : String :=
  "If you want to read from the S3 buckets, the following environment variables must be set:\n* AWS_ACCESS_KEY_ID\n* AWS_SECRET_ACCESS_KEY\nOptionally, the S3 host can be changed with:\n* AWS_HOST\n"

/-- The host endpoint after the scheme normalization in `Connection.__init__`:
`if host and not urlsplit(host).scheme: host = "https://%s" % host`. -/
def effectiveHost (e : Env) : Option String :=
  let host0 := get_env_or_config e "aws_host"
  if pyTruthy host0 && !(hasScheme (host0.getD "")) then
    some ("https://" ++ host0.getD "")
  else host0

/-- Embedding of `Connection.__init__`: resolve host, region and the two
credentials via `_get_env_or_config`; prefix a truthy scheme-less host with
`https://`; raise the configuration `UserError` when neither credential is
truthy; otherwise record the parameters passed to the client. -/
def connectionInit (e : Env) : Except DmsError Connection :=
  let host := effectiveHost e
  let region_name := get_env_or_config e "aws_region"
  let access_key := get_env_or_config e "aws_access_key_id"
  let secret_key := get_env_or_config e "aws_secret_access_key"
  let params : BotoParams :=
    ⟨access_key, secret_key,
      (if pyTruthy host then host else none),
      (if pyTruthy region_name then region_name else none)⟩
  if !(pyTruthy access_key || pyTruthy secret_key) then
    Except.error (DmsError.userError credentialsMsg)
  else
    Except.ok ⟨region_name, params⟩

/-- The remote's response to the `head_bucket` metadata probe, as seen by
`_bucket_exists`: success, a `ClientError` with its error code and `str(e)`
message, or an `EndpointConnectionError` with its message. -/
inductive HeadBucketOutcome where
  | success
  | clientError (errorCode : String) (message : String)
  | endpointConnectionError (message : String)
deriving DecidableEq

/-- Embedding of `Connection._bucket_exists`, parameterized by the remote's
response to the probe.  Returns the result (or raised error) together with
the list of log records emitted (`_logger.exception` on connectivity
failure). -/
def bucket_exists (outcome : HeadBucketOutcome) :
    Except DmsError Bool × List String :=
  match outcome with
  | HeadBucketOutcome.success => (Except.ok true, [])
  | HeadBucketOutcome.clientError errorCode message =>
      if errorCode == "404" then (Except.ok false, [])
      else (Except.error (DmsError.userError message), [])
  | HeadBucketOutcome.endpointConnectionError message =>
      (Except.error (DmsError.userError message),
        ["Error during connection on S3"])

/-- Embedding of `Connection.create_bucket`, parameterized by the stored
region and by the remote's response to the existence probe.  Returns the
result (`Unit` stands for the metadata dict the remote returns) and the
trace of remote calls issued. -/
def create_bucket (region_name : Option String) (bucket_name : String)
    (outcome : HeadBucketOutcome) : Except DmsError Unit × List S3Call :=
  match (bucket_exists outcome).1 with
  | Except.error e => (Except.error e, [S3Call.headBucket bucket_name])
  | Except.ok true =>
      (Except.error (DmsError.bucketAlreadyExists bucket_name),
        [S3Call.headBucket bucket_name])
  | Except.ok false =>
      if pyTruthy region_name then
        (Except.ok (),
          [S3Call.headBucket bucket_name,
           S3Call.createBucket bucket_name region_name])
      else
        (Except.ok (),
          [S3Call.headBucket bucket_name,
           S3Call.createBucket bucket_name none])

/-- Embedding of `Connection.delete_bucket`, parameterized by the `KeyCount`
reported by `list_objects_v2(Bucket=bucket_name, MaxKeys=1)`.  Returns the
result and the trace of remote calls issued. -/
def delete_bucket (bucket_name : String) (keyCount : Nat) :
    Except DmsError Unit × List S3Call :=
  if keyCount > 0 then
    (Except.error (DmsError.nonEmptyBucket bucket_name),
      [S3Call.listObjectsV2 bucket_name 1])
  else
    (Except.ok (),
      [S3Call.listObjectsV2 bucket_name 1, S3Call.deleteBucket bucket_name])

/-- The chunk-size limit of the remote bulk-delete API (`s3_limit`). -/
def s3_limit : Nat := 1000

/-- The chunk list built by `Connection.delete_objects`:
`[key_list_2[i : i + s3_limit] for i in range(0, len(key_list_2), s3_limit)]`.
`List.range' 0 n s3_limit` is Python's `range(0, len, s3_limit)` (it has
`ceil(len / s3_limit)` elements), and `(key_list.drop i).take s3_limit` is the
slice `key_list_2[i : i + s3_limit]`. -/
def keyChunks (key_list : List String) : List (List String) :=
  (List.range' 0 ((key_list.length + (s3_limit - 1)) / s3_limit) s3_limit).map
    (fun i => (key_list.drop i).take s3_limit)

/-- Embedding of `Connection.delete_objects`: one remote `delete_objects`
call per chunk, in order.  The result is the trace of remote calls issued. -/
def delete_objects (bucket_name : String) (key_list : List String) :
    List S3Call :=
  (keyChunks key_list).map (fun chunk => S3Call.deleteObjects bucket_name chunk)

/-- Embedding of `get_bucket_name`:
`user_pfx or _get_env_or_config("aws_bucket_prefix")`, then slugify the
prefixed or plain storage name depending on the truthiness of the result. -/
def get_bucket_name (e : Env) (storage_name : String)
    (user_pfx : Option String) : String :=
  let pfx := pyOrStr user_pfx (get_env_or_config e "aws_bucket_prefix")
  if pyTruthy pfx then slugify (pfx.getD "" ++ " " ++ storage_name)
  else slugify storage_name

/-- Recursive form of the chunk list: used to reason about `keyChunks`. -/
def chunksRec : List String → List (List String)
  | [] => []
  | a :: as => (a :: as).take s3_limit :: chunksRec ((a :: as).drop s3_limit)
termination_by l => l.length
decreasing_by simp [List.length_drop, s3_limit]; omega

theorem chunksRec_eq_nil_iff (l : List String) : chunksRec l = [] ↔ l = [] := by
  cases l with
  | nil => simp [chunksRec]
  | cons a as => simp [chunksRec]

theorem keyChunks_eq_chunksRec (l : List String) : keyChunks l = chunksRec l := by
  induction l using chunksRec.induct with
  | case1 => simp [keyChunks, chunksRec, s3_limit]
  | case2 a as ih =>
    rw [chunksRec, ← ih]
    have hcount : ((a :: as).length + (s3_limit - 1)) / s3_limit =
        (((a :: as).drop s3_limit).length + (s3_limit - 1)) / s3_limit + 1 := by
      simp only [List.length_drop, List.length_cons, s3_limit]
      omega
    rw [keyChunks, hcount, List.range'_succ, List.map_cons]
    have hshift : List.range' (0 + s3_limit) ((((a :: as).drop s3_limit).length + (s3_limit - 1)) / s3_limit) s3_limit =
        List.map (fun x => s3_limit + x)
          (List.range' 0 ((((a :: as).drop s3_limit).length + (s3_limit - 1)) / s3_limit) s3_limit) := by
      rw [List.map_add_range']
      norm_num
    rw [hshift, List.map_map, keyChunks]
    congr 1
    apply List.map_congr_left
    intro i _
    simp [Function.comp, List.drop_drop]

theorem chunksRec_flatten (l : List String) : (chunksRec l).flatten = l := by
  induction l using chunksRec.induct with
  | case1 => simp [chunksRec]
  | case2 a as ih =>
    rw [chunksRec]
    simp only [List.flatten_cons, ih, List.take_append_drop]

theorem chunksRec_le (l : List String) : ∀ c ∈ chunksRec l, c.length ≤ s3_limit := by
  induction l using chunksRec.induct with
  | case1 => simp [chunksRec]
  | case2 a as ih =>
    rw [chunksRec]
    intro c hc
    rcases List.mem_cons.mp hc with h | h
    · subst h
      simp [List.length_take]
    · exact ih c h

theorem chunksRec_dropLast (l : List String) :
    ∀ c ∈ (chunksRec l).dropLast, c.length = s3_limit := by
  induction l using chunksRec.induct with
  | case1 => simp [chunksRec]
  | case2 a as ih =>
    rw [chunksRec]
    cases hrest : chunksRec ((a :: as).drop s3_limit) with
    | nil => simp
    | cons b bs =>
      have hdrop : (a :: as).drop s3_limit ≠ [] := by
        intro hnil
        rw [hnil] at hrest
        simp [chunksRec] at hrest
      have hlong : s3_limit < (a :: as).length := by
        by_contra hle
        push_neg at hle
        exact hdrop (List.drop_eq_nil_of_le hle)
      intro c hc
      rw [List.dropLast_cons₂] at hc
      rcases List.mem_cons.mp hc with h | h
      · subst h
        rw [List.length_take]
        exact min_eq_left (Nat.le_of_lt hlong)
      · rw [← hrest] at h
        exact ih c h

theorem chunksRec_length (l : List String) :
    (chunksRec l).length = (l.length + (s3_limit - 1)) / s3_limit := by
  induction l using chunksRec.induct with
  | case1 => simp [chunksRec, s3_limit]
  | case2 a as ih =>
    rw [chunksRec]
    simp only [List.length_cons, ih, List.length_drop]
    simp only [s3_limit, List.length_cons]
    omega

theorem keyChunks_replicate_2500 :
    keyChunks (List.replicate 2500 "k") =
      [List.replicate 1000 "k", List.replicate 1000 "k", List.replicate 500 "k"] := by
  have hr : List.range' 0 ((2500 + (s3_limit - 1)) / s3_limit) s3_limit = [0, 1000, 2000] := by
    norm_num [s3_limit]
    decide
  rw [keyChunks, List.length_replicate, hr]
  simp only [List.map_cons, List.map_nil, List.drop_replicate, List.take_replicate,
    List.drop_zero, s3_limit]
  norm_num

/-- C1: `delete_objects` partitions the key list into consecutive chunks of at
most 1000 keys (the chunks concatenate back to the input, so order is
preserved and only the last chunk may be smaller), issues exactly one remote
delete call per chunk in input order, and an input of 2500 keys yields
exactly 3 calls of sizes 1000, 1000 and 500. -/
theorem delete_objects_chunking (bucket_name : String) (key_list : List String) :
    delete_objects bucket_name key_list =
      (keyChunks key_list).map (fun chunk => S3Call.deleteObjects bucket_name chunk) ∧
    (keyChunks key_list).flatten = key_list ∧
    (∀ c ∈ keyChunks key_list, c.length ≤ 1000) ∧
    (∀ c ∈ (keyChunks key_list).dropLast, c.length = 1000) ∧
    (keyChunks key_list).length = (key_list.length + 999) / 1000 ∧
    delete_objects bucket_name (List.replicate 2500 "k") =
      [S3Call.deleteObjects bucket_name (List.replicate 1000 "k"),
       S3Call.deleteObjects bucket_name (List.replicate 1000 "k"),
       S3Call.deleteObjects bucket_name (List.replicate 500 "k")] := by
  refine ⟨rfl, ?_, ?_, ?_, ?_, ?_⟩
  · rw [keyChunks_eq_chunksRec]
    exact chunksRec_flatten key_list
  · rw [keyChunks_eq_chunksRec]
    exact chunksRec_le key_list
  · rw [keyChunks_eq_chunksRec]
    exact chunksRec_dropLast key_list
  · rw [keyChunks_eq_chunksRec]
    exact chunksRec_length key_list
  · rw [delete_objects, keyChunks_replicate_2500]
    rfl

/-- C1 witness: the chunking theorem applied at a concrete input. -/
theorem delete_objects_chunking_witness :
    (keyChunks ["a", "b", "c"]).flatten = ["a", "b", "c"] :=
  (delete_objects_chunking "bucket" ["a", "b", "c"]).2.1

/-- A configuration with both credentials set in the environment. -/
def envBothCreds : Env :=
  ⟨fun k =>
      if k == "AWS_ACCESS_KEY_ID" then some "AK"
      else if k == "AWS_SECRET_ACCESS_KEY" then some "SK"
      else none,
    fun _ => none⟩

/-- A configuration with only the access key set in the environment. -/
def envOnlyAccessKey : Env :=
  ⟨fun k => if k == "AWS_ACCESS_KEY_ID" then some "AK" else none,
    fun _ => none⟩

/-- A configuration with both credentials and a scheme-less host. -/
def envHostNoScheme : Env :=
  ⟨fun k =>
      if k == "AWS_ACCESS_KEY_ID" then some "AK"
      else if k == "AWS_SECRET_ACCESS_KEY" then some "SK"
      else if k == "AWS_HOST" then some "s3.example.com"
      else none,
    fun _ => none⟩

/-- A configuration with both credentials and a host that carries a scheme. -/
def envHostWithScheme : Env :=
  ⟨fun k =>
      if k == "AWS_ACCESS_KEY_ID" then some "AK"
      else if k == "AWS_SECRET_ACCESS_KEY" then some "SK"
      else if k == "AWS_HOST" then some "http://s3.example.com"
      else none,
    fun _ => none⟩

set_option maxRecDepth 10000 in
/-- C2: `Connection` construction raises the configuration `UserError` if and
only if both resolved credentials are absent/empty; the raised message names
`AWS_ACCESS_KEY_ID`, `AWS_SECRET_ACCESS_KEY` and `AWS_HOST`; and when both
credentials are present construction succeeds without this error. -/
theorem connectionInit_credentials_error (e : Env) :
    (connectionInit e = Except.error (DmsError.userError credentialsMsg) ↔
      pyTruthy (get_env_or_config e "aws_access_key_id") = false ∧
      pyTruthy (get_env_or_config e "aws_secret_access_key") = false) ∧
    List.IsInfix "AWS_ACCESS_KEY_ID".toList credentialsMsg.toList ∧
    List.IsInfix "AWS_SECRET_ACCESS_KEY".toList credentialsMsg.toList ∧
    List.IsInfix "AWS_HOST".toList credentialsMsg.toList ∧
    (pyTruthy (get_env_or_config e "aws_access_key_id") = true →
      pyTruthy (get_env_or_config e "aws_secret_access_key") = true →
      ∃ c, connectionInit e = Except.ok c) := by
  refine ⟨?_, by decide, by decide, by decide, ?_⟩
  · cases hA : pyTruthy (get_env_or_config e "aws_access_key_id") <;>
      cases hS : pyTruthy (get_env_or_config e "aws_secret_access_key") <;>
      simp [connectionInit, hA, hS]
  · intro hA hS
    cases hres : connectionInit e with
    | ok c => exact ⟨c, rfl⟩
    | error err =>
      exfalso
      simp [connectionInit, hA, hS] at hres

/-- C2 witness: with both credentials set construction succeeds; with both
sources empty it raises exactly the configuration error. -/
theorem connectionInit_credentials_error_witness :
    (∃ c, connectionInit envBothCreds = Except.ok c) ∧
    connectionInit ⟨fun _ => none, fun _ => none⟩ =
      Except.error (DmsError.userError credentialsMsg) := by
  constructor
  · exact (connectionInit_credentials_error envBothCreds).2.2.2.2 (by decide) (by decide)
  · exact ((connectionInit_credentials_error ⟨fun _ => none, fun _ => none⟩).1).mpr
      ⟨by decide, by decide⟩

/-- C9: when exactly one of the two credentials resolves to a truthy value,
construction does not raise the configuration error, and the resolved values
(the present one and the absent one alike) are passed through to the
underlying client unvalidated. -/
theorem connectionInit_single_credential (e : Env)
    (h : pyTruthy (get_env_or_config e "aws_access_key_id") ≠
      pyTruthy (get_env_or_config e "aws_secret_access_key")) :
    connectionInit e = Except.ok
      ⟨get_env_or_config e "aws_region",
        ⟨get_env_or_config e "aws_access_key_id",
          get_env_or_config e "aws_secret_access_key",
          (if pyTruthy (effectiveHost e) then effectiveHost e else none),
          (if pyTruthy (get_env_or_config e "aws_region") then
            get_env_or_config e "aws_region" else none)⟩⟩ := by
  have hcred : (pyTruthy (get_env_or_config e "aws_access_key_id") ||
      pyTruthy (get_env_or_config e "aws_secret_access_key")) = true := by
    cases hA : pyTruthy (get_env_or_config e "aws_access_key_id") <;>
      cases hS : pyTruthy (get_env_or_config e "aws_secret_access_key") <;>
      simp_all
  simp [connectionInit, hcred]

/-- C9 witness: only the access key set; construction succeeds and passes the
single credential through. -/
theorem connectionInit_single_credential_witness :
    connectionInit envOnlyAccessKey = Except.ok
      ⟨none, ⟨some "AK", none, none, none⟩⟩ :=
  (connectionInit_single_credential envOnlyAccessKey (by decide)).trans rfl

/-- C8: a truthy resolved host value without a URL scheme is prefixed with
`https://`, one that already carries a scheme is passed through unchanged,
the constructed client receives exactly this effective endpoint, and on the
spec's examples `s3.example.com` becomes `https://s3.example.com` while
`http://s3.example.com` stays unchanged. -/
theorem connectionInit_host_scheme (e : Env) (h : String) :
    (get_env_or_config e "aws_host" = some h → h ≠ "" → hasScheme h = false →
      effectiveHost e = some ("https://" ++ h)) ∧
    (get_env_or_config e "aws_host" = some h → hasScheme h = true →
      effectiveHost e = some h) ∧
    (∀ c, connectionInit e = Except.ok c →
      c.boto_params.endpoint_url =
        (if pyTruthy (effectiveHost e) then effectiveHost e else none)) ∧
    (∃ c, connectionInit envHostNoScheme = Except.ok c ∧
      c.boto_params.endpoint_url = some "https://s3.example.com") ∧
    (∃ c, connectionInit envHostWithScheme = Except.ok c ∧
      c.boto_params.endpoint_url = some "http://s3.example.com") := by
  refine ⟨?_, ?_, ?_, ?_, ?_⟩
  · intro h0 hne hsch
    simp [effectiveHost, h0, hsch, pyTruthy, hne]
  · intro h0 hsch
    simp [effectiveHost, h0, hsch, pyTruthy]
  · intro c hc
    simp only [connectionInit] at hc
    split at hc
    · exact absurd hc (by simp)
    · cases hc
      rfl
  · exact ⟨⟨none, ⟨some "AK", some "SK", some "https://s3.example.com", none⟩⟩,
      rfl, rfl⟩
  · exact ⟨⟨none, ⟨some "AK", some "SK", some "http://s3.example.com", none⟩⟩,
      rfl, rfl⟩

/-- C8 witness: the scheme-less host example, via the theorem. -/
theorem connectionInit_host_scheme_witness :
    effectiveHost envHostNoScheme = some "https://s3.example.com" :=
  (connectionInit_host_scheme envHostNoScheme "s3.example.com").1
    (by decide) (by decide) (by decide)

theorem pyTruthy_none : pyTruthy none = false := rfl

theorem pyTruthy_some (s : String) : pyTruthy (some s) = !(s == "") := rfl

/-- C5: the existence probe returns true on remote success, false exactly on
a client error with code `"404"`, and raises a `UserError` wrapping the
original message on any other client error and on an endpoint connectivity
failure; the connectivity failure is additionally logged locally. -/
theorem bucket_exists_spec (errorCode message : String) (outcome : HeadBucketOutcome) :
    (bucket_exists HeadBucketOutcome.success).1 = Except.ok true ∧
    (errorCode = "404" →
      bucket_exists (HeadBucketOutcome.clientError errorCode message) =
        (Except.ok false, [])) ∧
    (errorCode ≠ "404" →
      (bucket_exists (HeadBucketOutcome.clientError errorCode message)).1 =
        Except.error (DmsError.userError message)) ∧
    (bucket_exists (HeadBucketOutcome.endpointConnectionError message)).1 =
      Except.error (DmsError.userError message) ∧
    (bucket_exists (HeadBucketOutcome.endpointConnectionError message)).2 =
      ["Error during connection on S3"] ∧
    ((bucket_exists outcome).1 = Except.ok false ↔
      ∃ m, outcome = HeadBucketOutcome.clientError "404" m) := by
  refine ⟨rfl, ?_, ?_, rfl, rfl, ?_⟩
  · intro h
    subst h
    rfl
  · intro h
    simp [bucket_exists, h]
  · cases outcome with
    | success => simp [bucket_exists]
    | clientError c m =>
      by_cases hc : c = "404" <;> simp [bucket_exists, hc]
    | endpointConnectionError m => simp [bucket_exists]

/-- C5 witness: a non-404 client error surfaces as a `UserError`. -/
theorem bucket_exists_spec_witness :
    (bucket_exists (HeadBucketOutcome.clientError "403" "denied")).1 =
      Except.error (DmsError.userError "denied") :=
  (bucket_exists_spec "403" "denied" HeadBucketOutcome.success).2.2.1 (by decide)

/-- C3: `create_bucket` probes existence first (the trace starts with the
probe); on an existing bucket it raises the already-exists error carrying the
bucket name without issuing the create call; otherwise it issues exactly one
create call whose location constraint is the configured region exactly when a
truthy region is configured, and is omitted otherwise. -/
theorem create_bucket_spec (region_name : Option String) (bucket_name : String)
    (outcome : HeadBucketOutcome) :
    ((create_bucket region_name bucket_name outcome).2.head? =
      some (S3Call.headBucket bucket_name)) ∧
    ((bucket_exists outcome).1 = Except.ok true →
      (create_bucket region_name bucket_name outcome).1 =
        Except.error (DmsError.bucketAlreadyExists bucket_name) ∧
      (create_bucket region_name bucket_name outcome).2 =
        [S3Call.headBucket bucket_name]) ∧
    ((bucket_exists outcome).1 = Except.ok false →
      (create_bucket region_name bucket_name outcome).1 = Except.ok () ∧
      (create_bucket region_name bucket_name outcome).2 =
        [S3Call.headBucket bucket_name,
         S3Call.createBucket bucket_name
           (if pyTruthy region_name then region_name else none)]) := by
  cases hres : (bucket_exists outcome).1 with
  | error err =>
    refine ⟨?_, ?_, ?_⟩ <;> simp [create_bucket, hres]
  | ok b =>
    cases b with
    | true => refine ⟨?_, ?_, ?_⟩ <;> simp [create_bucket, hres]
    | false =>
      cases hreg : pyTruthy region_name <;>
        refine ⟨?_, ?_, ?_⟩ <;> simp [create_bucket, hres, hreg]

/-- C3 witness: an existing bucket raises the already-exists error. -/
theorem create_bucket_spec_witness :
    (create_bucket (some "eu-west-1") "mybucket" HeadBucketOutcome.success).1 =
      Except.error (DmsError.bucketAlreadyExists "mybucket") :=
  ((create_bucket_spec (some "eu-west-1") "mybucket" HeadBucketOutcome.success).2.1 rfl).1

/-- C4: `delete_bucket` first lists at most one key (`MaxKeys = 1`); when at
least one key is reported it raises the non-empty error carrying the bucket
name and issues no bucket-delete call; when zero keys are reported it issues
the bucket-delete call exactly once. -/
theorem delete_bucket_spec (bucket_name : String) (keyCount : Nat) :
    ((delete_bucket bucket_name keyCount).2.head? =
      some (S3Call.listObjectsV2 bucket_name 1)) ∧
    (keyCount > 0 →
      (delete_bucket bucket_name keyCount).1 =
        Except.error (DmsError.nonEmptyBucket bucket_name) ∧
      (delete_bucket bucket_name keyCount).2.count (S3Call.deleteBucket bucket_name) = 0) ∧
    (keyCount = 0 →
      (delete_bucket bucket_name keyCount).1 = Except.ok () ∧
      (delete_bucket bucket_name keyCount).2 =
        [S3Call.listObjectsV2 bucket_name 1, S3Call.deleteBucket bucket_name] ∧
      (delete_bucket bucket_name keyCount).2.count (S3Call.deleteBucket bucket_name) = 1) := by
  refine ⟨?_, ?_, ?_⟩
  · cases hk : keyCount <;> simp [delete_bucket]
  · intro hk
    constructor <;> simp [delete_bucket, hk, List.count_cons]
  · intro hk
    subst hk
    refine ⟨by simp [delete_bucket], by simp [delete_bucket], ?_⟩
    simp [delete_bucket, List.count_cons]

/-- C4 witness: a non-empty bucket raises the non-empty error. -/
theorem delete_bucket_spec_witness :
    (delete_bucket "mybucket" 1).1 = Except.error (DmsError.nonEmptyBucket "mybucket") :=
  ((delete_bucket_spec "mybucket" 1).2.1 (by decide)).1

/-- C6: `get_bucket_name` slugs the explicitly prefixed name when a non-empty
explicit value is given, falls back to the configured setting otherwise (slug
of the prefixed name when that is truthy, slug of the storage name alone when
not), and on the spec's examples yields `demo-my-bucket` and `my-bucket`.
Determinism holds because the embedding is a function of the storage name,
the optional explicit value and the configuration snapshot. -/
theorem get_bucket_name_spec (e : Env) (storage_name p : String) :
    (p ≠ "" → get_bucket_name e storage_name (some p) =
      slugify (p ++ " " ++ storage_name)) ∧
    (pyTruthy (get_env_or_config e "aws_bucket_prefix") = true →
      get_bucket_name e storage_name none =
        slugify ((get_env_or_config e "aws_bucket_prefix").getD "" ++ " " ++ storage_name)) ∧
    (pyTruthy (get_env_or_config e "aws_bucket_prefix") = false →
      get_bucket_name e storage_name none = slugify storage_name) ∧
    get_bucket_name e "My Bucket" (some "demo") = "demo-my-bucket" ∧
    (pyTruthy (get_env_or_config e "aws_bucket_prefix") = false →
      get_bucket_name e "My Bucket" none = "my-bucket") := by
  refine ⟨?_, ?_, ?_, ?_, ?_⟩
  · intro hp
    simp [get_bucket_name, pyOrStr, pyTruthy_some, hp]
  · intro hc
    simp [get_bucket_name, pyOrStr, pyTruthy_none, hc]
  · intro hc
    simp [get_bucket_name, pyOrStr, pyTruthy_none, hc]
  · have : get_bucket_name e "My Bucket" (some "demo") =
        slugify ("demo" ++ " " ++ "My Bucket") := by
      simp [get_bucket_name, pyOrStr, pyTruthy_some]
    rw [this]
    decide
  · intro hc
    have : get_bucket_name e "My Bucket" none = slugify "My Bucket" := by
      simp [get_bucket_name, pyOrStr, pyTruthy_none, hc]
    rw [this]
    decide

/-- C6 witness: the explicit `demo` value on `My Bucket`, via the theorem. -/
theorem get_bucket_name_spec_witness :
    get_bucket_name ⟨fun _ => none, fun _ => none⟩ "My Bucket" (some "demo") =
      slugify ("demo" ++ " " ++ "My Bucket") :=
  (get_bucket_name_spec ⟨fun _ => none, fun _ => none⟩ "My Bucket" "demo").1 (by decide)

/-- C7: config resolution reads the environment under the uppercased key and
uses that value when truthy; otherwise it returns whatever the host
configuration store holds under the lowercased key (possibly absent).  On the
spec's example, an environment `AWS_REGION=eu-west-1` wins over any host
configuration, and an empty environment falls back to the store's
`aws_region`. -/
theorem get_env_or_config_spec (e : Env) (key : String) (cfg : String → Option String) :
    (pyTruthy (e.osEnviron (strUpper key)) = true →
      get_env_or_config e key = e.osEnviron (strUpper key)) ∧
    (pyTruthy (e.osEnviron (strUpper key)) = false →
      get_env_or_config e key = e.odooConfig (strLower key)) ∧
    get_env_or_config
      ⟨fun k => if k == "AWS_REGION" then some "eu-west-1" else none, cfg⟩
      "aws_region" = some "eu-west-1" ∧
    get_env_or_config ⟨fun _ => none, cfg⟩ "aws_region" = cfg "aws_region" := by
  have hu : strUpper "aws_region" = "AWS_REGION" := by decide
  have hl : strLower "aws_region" = "aws_region" := by decide
  refine ⟨?_, ?_, ?_, ?_⟩
  · intro h
    simp [get_env_or_config, pyOrStr, h]
  · intro h
    simp [get_env_or_config, pyOrStr, h]
  · simp [get_env_or_config, pyOrStr, pyTruthy, hu]
  · simp [get_env_or_config, pyOrStr, pyTruthy, hl]

/-- C7 witness: a truthy environment value is returned as-is, at the
spec's example configuration. -/
theorem get_env_or_config_spec_witness :
    get_env_or_config
      ⟨fun k => if k == "AWS_REGION" then some "eu-west-1" else none, fun _ => none⟩
      "aws_region" =
      (⟨fun k => if k == "AWS_REGION" then some "eu-west-1" else none,
        fun _ => none⟩ : Env).osEnviron (strUpper "aws_region") :=
  (get_env_or_config_spec
    ⟨fun k => if k == "AWS_REGION" then some "eu-west-1" else none, fun _ => none⟩
    "aws_region" (fun _ => none)).1 (by decide)

/-- C10: an explicit empty-string value behaves exactly like passing no
explicit value at all: the configured setting (or no value) decides. -/
theorem get_bucket_name_empty_user_pfx (e : Env) (storage_name : String) :
    get_bucket_name e storage_name (some "") = get_bucket_name e storage_name none := by
  simp [get_bucket_name, pyOrStr, pyTruthy]

end DmsStorageS3
